import Mathlib

/-!
Verification of the STM32L431_CAN tracking/guidance core (`app/src/main/cpp`:
`kalman_filter.cpp`, `object_tracker.cpp`, `guidance_controller.cpp`) against its
natural-language specification.

Embedding conventions:
* C `double`/`float` values are modelled as real numbers (exact arithmetic);
  `sqrt`/`sqrtf` become `Real.sqrt`.
* C `int` values are modelled as `ℤ`; the `(int)` cast of a floating value is
  truncation toward zero (`itrunc`); `int` division by 2 is `Int.tdiv`
  (truncation toward zero, as in C).
* Each mutating C function becomes a pure function from the old state (plus
  arguments) to the new state (plus outputs).
-/

noncomputable section

/-- Truncation toward zero: the semantics of C's `(int)` cast of a `double`. -/
def itrunc (x : ℝ) : ℤ := if 0 ≤ x then ⌊x⌋ else -⌊-x⌋

/-! ## Kalman filter (`kalman_filter.cpp`)

`struct KalmanState`: state vector `[x, y, vx, vy]`, 4×4 covariance `P`,
scalar process and measurement noise, and the `initialized` flag
(field name `inited` here). -/

@[ext]
structure KalmanState where
  state : Fin 4 → ℝ
  P : Fin 4 → Fin 4 → ℝ
  processNoise : ℝ
  measurementNoise : ℝ
  inited : Bool

/-- The state-transition matrix `F` (constant-velocity model). -/
def Fmat : Fin 4 → Fin 4 → ℝ :=
  ![![1, 0, 1, 0],
    ![0, 1, 0, 1],
    ![0, 0, 1, 0],
    ![0, 0, 0, 1]]

/-- `matVec4`: 4×4 times 4×1, unrolled exactly as in the source. -/
def matVec4 (m : Fin 4 → Fin 4 → ℝ) (v : Fin 4 → ℝ) : Fin 4 → ℝ :=
  fun i => m i 0 * v 0 + m i 1 * v 1 + m i 2 * v 2 + m i 3 * v 3

/-- `matMul4x4`: 4×4 times 4×4, entry `(i,j)` is the sum over `k` of
`a[i][k]*b[k][j]`. -/
def matMul4x4 (a b : Fin 4 → Fin 4 → ℝ) : Fin 4 → Fin 4 → ℝ :=
  fun i j => a i 0 * b 0 j + a i 1 * b 1 j + a i 2 * b 2 j + a i 3 * b 3 j

/-- Covariance of the diagonal shape `diag(p, p, 10, 10)` used by the filter
(`kalmanInit` writes `P00 = P11 = 100`, `P22 = P33 = 10`, rest zero). -/
def diagP (p : ℝ) : Fin 4 → Fin 4 → ℝ :=
  ![![p, 0, 0, 0],
    ![0, p, 0, 0],
    ![0, 0, 10, 0],
    ![0, 0, 0, 10]]

/-- `kalmanInit(x, y, processNoise, measurementNoise)`. -/
def kalmanInit (x y processNoise measurementNoise : ℝ) : KalmanState :=
  { state := ![x, y, 0, 0]
    P := diagP 100
    processNoise := processNoise
    measurementNoise := measurementNoise
    inited := true }

/-- `kalmanPredict(&outX, &outY)`: returns the new filter state together with
the two output parameters. Uninitialized: outputs `(0,0)`, state untouched. -/
def kalmanPredict (k : KalmanState) : KalmanState × ℝ × ℝ :=
  if k.inited = false then (k, 0, 0)
  else
    let predictedState := matVec4 Fmat k.state
    let FP := matMul4x4 Fmat k.P
    let FPFt : Fin 4 → Fin 4 → ℝ := fun i j =>
      FP i 0 * Fmat j 0 + FP i 1 * Fmat j 1 + FP i 2 * Fmat j 2 + FP i 3 * Fmat j 3
    let FPFtQ : Fin 4 → Fin 4 → ℝ := fun i j =>
      if i = j then FPFt i j + k.processNoise else FPFt i j
    let k1 : KalmanState := { k with state := predictedState, P := FPFtQ }
    (k1, k1.state 0, k1.state 1)

/-- The determinant of the innovation covariance
`S = P[0:2,0:2] + measurementNoise·I` computed inside `kalmanUpdate`. -/
def innovationDet (k : KalmanState) : ℝ :=
  (k.P 0 0 + k.measurementNoise) * (k.P 1 1 + k.measurementNoise) - k.P 0 1 * k.P 1 0

/-- `kalmanUpdate(measuredX, measuredY)`.
Uninitialized: auto-initializes at the measurement with `Q=300, R=1`.
If `|det S| < 1e-10` the whole update is skipped. -/
def kalmanUpdate (measuredX measuredY : ℝ) (k : KalmanState) : KalmanState :=
  if k.inited = false then kalmanInit measuredX measuredY 300 1
  else
    let inn0 := measuredX - k.state 0
    let inn1 := measuredY - k.state 1
    let S00 := k.P 0 0 + k.measurementNoise
    let S01 := k.P 0 1
    let S10 := k.P 1 0
    let S11 := k.P 1 1 + k.measurementNoise
    let det := S00 * S11 - S01 * S10
    if |det| < 1e-10 then k
    else
      let invS00 := S11 / det
      let invS01 := -S01 / det
      let invS10 := -S10 / det
      let invS11 := S00 / det
      let K : Fin 4 → Fin 2 → ℝ := fun i j =>
        if j = 0 then k.P i 0 * invS00 + k.P i 1 * invS10
        else k.P i 0 * invS01 + k.P i 1 * invS11
      let stateUpd : Fin 4 → ℝ := fun i => k.state i + (K i 0 * inn0 + K i 1 * inn1)
      let dx := stateUpd 0 - k.state 0
      let dy := stateUpd 1 - k.state 1
      let newState : Fin 4 → ℝ :=
        ![stateUpd 0, stateUpd 1, stateUpd 2 * 0.5 + dx * 0.5, stateUpd 3 * 0.5 + dy * 0.5]
      let IKH : Fin 4 → Fin 4 → ℝ := fun i j =>
        (if i = j then (1 : ℝ) else 0) -
          (if j = 0 then K i 0 else if j = 1 then K i 1 else 0)
      let newP := matMul4x4 IKH k.P
      { k with state := newState, P := newP }

/-- `kalmanGetState`: the four state components. -/
def kalmanGetState (k : KalmanState) : ℝ × ℝ × ℝ × ℝ :=
  (k.state 0, k.state 1, k.state 2, k.state 3)

/-- `kalmanReset()`: zeroes state and covariance, clears the flag. -/
def kalmanReset (k : KalmanState) : KalmanState :=
  { k with state := fun _ => 0, P := fun _ _ => 0, inited := false }

/-- `kalmanGetUncertainty()`: `sqrt(P00*P00 + P11*P11)`. -/
def kalmanGetUncertainty (k : KalmanState) : ℝ :=
  Real.sqrt (k.P 0 0 * k.P 0 0 + k.P 1 1 * k.P 1 1)

/-- The all-zero uninitialized Kalman state (`static KalmanState kalman = {0}`). -/
def kalmanZero : KalmanState :=
  { state := fun _ => 0, P := fun _ _ => 0, processNoise := 0, measurementNoise := 0,
    inited := false }

/-- Distance from the position estimate to a measurement point
(Euclidean distance, as in the claim about repeated updates). -/
def posError (mx my : ℝ) (k : KalmanState) : ℝ :=
  Real.sqrt ((k.state 0 - mx) * (k.state 0 - mx) + (k.state 1 - my) * (k.state 1 - my))

/-- `n` repeated calls of `kalmanUpdate(mx, my)`. -/
def kalmanIter (mx my : ℝ) (k : KalmanState) : ℕ → KalmanState
  | 0 => k
  | n + 1 => kalmanUpdate mx my (kalmanIter mx my k n)

/-! ## Shared Kalman lemmas -/

theorem kalmanUpdate_noop (mx my : ℝ) (k : KalmanState) (h1 : k.inited = true)
    (h2 : |innovationDet k| < 1e-10) : kalmanUpdate mx my k = k := by
  rw [kalmanUpdate, h1]
  simp only [Bool.true_eq_false, if_false]
  rw [if_pos]
  exact h2

/-- C5: on an initialized state with `|det S| < 1e-10`, `kalmanUpdate` leaves the
entire Kalman state (state vector, covariance, noise parameters, flag)
unchanged. -/
theorem C5_kalmanUpdate_singular_noop (mx my : ℝ) (k : KalmanState)
    (h1 : k.inited = true) (h2 : |innovationDet k| < 1e-10) :
    kalmanUpdate mx my k = k :=
  kalmanUpdate_noop mx my k h1 h2

/-- A concrete initialized state with zero covariance and zero measurement
noise: its innovation covariance is singular. -/
def kSingular : KalmanState := { kalmanZero with inited := true }

/-- Witness for C5: a concrete initialized state with singular innovation
covariance is left untouched. -/
theorem C5_witness :
    kSingular.inited = true ∧ |innovationDet kSingular| < 1e-10 ∧
      kalmanUpdate 3 4 kSingular = kSingular := by
  refine ⟨rfl, ?_, ?_⟩
  · simp [innovationDet, kSingular, kalmanZero]
    norm_num
  · exact C5_kalmanUpdate_singular_noop 3 4 _ rfl
      (by simp [innovationDet, kSingular, kalmanZero]; norm_num)

/-! ## PID controller (`guidance_controller.cpp`)

The source keeps two static controllers selected by an `axis` index; each is an
independent copy of the same state machine, modelled here as one
`PIDController` value passed explicitly. -/

@[ext]
structure PIDController where
  kp : ℝ
  ki : ℝ
  kd : ℝ
  integral : ℝ
  prevError : ℝ
  prevOutput : ℝ
  outputMin : ℝ
  outputMax : ℝ
  integralMax : ℝ
  alpha : ℝ
  inited : Bool

/-- `pidInit(axis, kp, ki, kd, outputMin, outputMax, alpha)` (state of the
selected axis after the call). -/
def pidInit (kp ki kd outputMin outputMax alpha : ℝ) : PIDController :=
  { kp := kp, ki := ki, kd := kd
    integral := 0, prevError := 0, prevOutput := 0
    outputMin := outputMin, outputMax := outputMax
    integralMax := outputMax * 0.5
    alpha := alpha
    inited := true }

/-- `pidUpdate(axis, error, dt)`: new state of the selected axis plus the
returned value. -/
def pidUpdate (e dt : ℝ) (p : PIDController) : PIDController × ℝ :=
  if p.inited = false then (p, 0)
  else
    let dt1 := if dt ≤ 0 then (0.033 : ℝ) else dt
    let pTerm := p.kp * e
    let i0 := p.integral + e * dt1
    let i1 := if i0 > p.integralMax then p.integralMax else i0
    let i2 := if i1 < -p.integralMax then -p.integralMax else i1
    let iTerm := p.ki * i2
    let derivative := (e - p.prevError) / dt1
    let dTerm := p.kd * derivative
    let output0 := pTerm + iTerm + dTerm
    let output1 := p.alpha * output0 + (1 - p.alpha) * p.prevOutput
    let p1 := { p with integral := i2, prevError := e, prevOutput := output1 }
    let output2 := if output1 < p.outputMin then p.outputMin else output1
    let output3 := if output2 > p.outputMax then p.outputMax else output2
    (p1, output3)

/-- Run a sequence of `pidUpdate` calls (pairs of `(error, dt)`), keeping the
controller state. -/
def pidRun (inputs : List (ℝ × ℝ)) (p : PIDController) : PIDController :=
  inputs.foldl (fun s i => (pidUpdate i.1 i.2 s).1) p

/-! ## Guidance controller state (`guidance_controller.cpp`) -/

@[ext]
structure GuidanceState where
  rawErrorX : ℝ
  rawErrorY : ℝ
  filteredErrorX : ℝ
  filteredErrorY : ℝ
  pitchCmd : ℝ
  yawCmd : ℝ
  servoAngles : Fin 4 → ℝ
  alpha : ℝ
  cmdMin : ℝ
  cmdMax : ℝ
  tracking : Bool

/-- `guidanceUpdate(errorX, errorY, dt)`: consumes and returns the guidance
state plus both PID controllers (axis 0 = yaw, axis 1 = pitch). -/
def guidanceUpdate (errorX errorY dt : ℝ) (g : GuidanceState)
    (pidX pidY : PIDController) : GuidanceState × PIDController × PIDController :=
  if g.tracking = false then (g, pidX, pidY)
  else
    let a := g.alpha
    let fX := a * errorX + (1 - a) * g.filteredErrorX
    let fY := a * errorY + (1 - a) * g.filteredErrorY
    let yawRes := pidUpdate fX dt pidX
    let pitchRes := pidUpdate fY dt pidY
    let p := -pitchRes.2
    let y := yawRes.2
    let mn := g.cmdMin
    let mx := g.cmdMax
    let s0 := p + y
    let s1 := p - y
    let s2 := -p - y
    let s3 := -p + y
    let clampS : ℝ → ℝ := fun s => if s < mn then mn else if s > mx then mx else s
    ({ g with rawErrorX := errorX, rawErrorY := errorY,
              filteredErrorX := fX, filteredErrorY := fY,
              pitchCmd := p, yawCmd := y,
              servoAngles := ![clampS s0, clampS s1, clampS s2, clampS s3] },
     yawRes.1, pitchRes.1)

/-! ## Sensor fusion (`guidance_controller.cpp`) -/

@[ext]
structure SensorFusionState where
  gpsLat : ℝ
  gpsLon : ℝ
  gpsAlt : ℝ
  gpsTimestamp : ℤ
  offsetN : ℝ
  offsetE : ℝ
  offsetD : ℝ
  velN : ℝ
  velE : ℝ
  velD : ℝ
  fusedLat : ℝ
  fusedLon : ℝ
  fusedAlt : ℝ
  alpha : ℝ
  hasGpsFix : Bool

/-- `fusionUpdateGps(lat, lon, alt, timestamp)`: records the fix and decays the
accumulated IMU offsets by `(1.0 - (1.0 - alpha))`. -/
def fusionUpdateGps (lat lon alt : ℝ) (timestamp : ℤ)
    (f : SensorFusionState) : SensorFusionState :=
  { f with gpsLat := lat, gpsLon := lon, gpsAlt := alt, gpsTimestamp := timestamp,
           offsetN := f.offsetN * (1 - (1 - f.alpha)),
           offsetE := f.offsetE * (1 - (1 - f.alpha)),
           offsetD := f.offsetD * (1 - (1 - f.alpha)),
           hasGpsFix := true }

/-! ## Claims C6 – C9 -/

theorem pidUpdate_of_not_inited (e dt : ℝ) (p : PIDController)
    (h : p.inited = false) : pidUpdate e dt p = (p, 0) := by
  rw [pidUpdate, h, if_pos rfl]

theorem pidUpdate_fst (e dt : ℝ) (p : PIDController) (h : p.inited = true) :
    (pidUpdate e dt p).1 =
      (let dt1 := if dt ≤ 0 then (0.033 : ℝ) else dt
       let i0 := p.integral + e * dt1
       let i1 := if i0 > p.integralMax then p.integralMax else i0
       let i2 := if i1 < -p.integralMax then -p.integralMax else i1
       let output0 := p.kp * e + p.ki * i2 + p.kd * ((e - p.prevError) / dt1)
       let output1 := p.alpha * output0 + (1 - p.alpha) * p.prevOutput
       { p with integral := i2, prevError := e, prevOutput := output1 }) := by
  rw [pidUpdate, h]
  rfl

theorem pidRun_integral_bound (inputs : List (ℝ × ℝ)) (p : PIDController)
    (hM : 0 ≤ p.integralMax) (hI : |p.integral| ≤ p.integralMax) :
    |(pidRun inputs p).integral| ≤ p.integralMax ∧
      (pidRun inputs p).integralMax = p.integralMax := by
  induction inputs generalizing p with
  | nil => exact ⟨hI, rfl⟩
  | cons hd tl ih =>
    rw [pidRun, List.foldl_cons]
    have hstep : |(pidUpdate hd.1 hd.2 p).1.integral| ≤ p.integralMax ∧
        (pidUpdate hd.1 hd.2 p).1.integralMax = p.integralMax := by
      by_cases hinit : p.inited = true
      · rw [pidUpdate_fst hd.1 hd.2 p hinit]
        refine ⟨?_, rfl⟩
        simp only [abs_le]
        constructor <;> split_ifs <;> linarith [abs_le.mp hI]
      · rw [pidUpdate_of_not_inited hd.1 hd.2 p (by revert hinit; cases p.inited <;> simp)]
        exact ⟨hI, rfl⟩
    have := ih (pidUpdate hd.1 hd.2 p).1 (hstep.2 ▸ hM) (hstep.2 ▸ hstep.1)
    rw [hstep.2] at this
    exact ⟨this.1, this.2⟩

/-- C6: after `pidInit`, every sequence of `pidUpdate` calls keeps the stored
integral accumulator within `[-outputMax*0.5, outputMax*0.5]`; moreover each
`pidUpdate` stores the clamp of the raw accumulator and uses `ki` times this
clamped value in its output. -/
theorem C6_pid_integral_invariant (kp ki kd omin omax a : ℝ) (hmax : 0 ≤ omax)
    (inputs : List (ℝ × ℝ)) :
    (-(omax * 0.5) ≤ (pidRun inputs (pidInit kp ki kd omin omax a)).integral ∧
      (pidRun inputs (pidInit kp ki kd omin omax a)).integral ≤ omax * 0.5) ∧
    ∀ (s : PIDController) (e dt : ℝ), s.inited = true →
      (pidUpdate e dt s).1.integral =
        (let dt1 := if dt ≤ 0 then (0.033 : ℝ) else dt
         let i0 := s.integral + e * dt1
         let i1 := if i0 > s.integralMax then s.integralMax else i0
         if i1 < -s.integralMax then -s.integralMax else i1) ∧
      (pidUpdate e dt s).2 =
        (let dt1 := if dt ≤ 0 then (0.033 : ℝ) else dt
         let out1 := s.alpha * (s.kp * e + s.ki * (pidUpdate e dt s).1.integral
                       + s.kd * ((e - s.prevError) / dt1)) + (1 - s.alpha) * s.prevOutput
         let out2 := if out1 < s.outputMin then s.outputMin else out1
         if out2 > s.outputMax then s.outputMax else out2) := by
  constructor
  · have h := pidRun_integral_bound inputs (pidInit kp ki kd omin omax a)
      (by simp [pidInit]; linarith) (by simp [pidInit]; linarith)
    have h2 : (pidInit kp ki kd omin omax a).integralMax = omax * 0.5 := rfl
    rw [h2] at h
    exact abs_le.mp h.1
  · intro s e dt hinit
    rw [pidUpdate, hinit]
    simp only [Bool.true_eq_false, if_false]
    exact ⟨trivial, trivial⟩

/-- Witness for C6 at concrete gains and inputs. -/
theorem C6_witness :
    (0 : ℝ) ≤ 20 ∧
    ((-(20 * 0.5) ≤ (pidRun [(3, 1), (50, 2)] (pidInit 1 2 3 (-20) 20 1)).integral ∧
      (pidRun [(3, 1), (50, 2)] (pidInit 1 2 3 (-20) 20 1)).integral ≤ 20 * 0.5) ∧
    ∀ (s : PIDController) (e dt : ℝ), s.inited = true →
      (pidUpdate e dt s).1.integral =
        (let dt1 := if dt ≤ 0 then (0.033 : ℝ) else dt
         let i0 := s.integral + e * dt1
         let i1 := if i0 > s.integralMax then s.integralMax else i0
         if i1 < -s.integralMax then -s.integralMax else i1) ∧
      (pidUpdate e dt s).2 =
        (let dt1 := if dt ≤ 0 then (0.033 : ℝ) else dt
         let out1 := s.alpha * (s.kp * e + s.ki * (pidUpdate e dt s).1.integral
                       + s.kd * ((e - s.prevError) / dt1)) + (1 - s.alpha) * s.prevOutput
         let out2 := if out1 < s.outputMin then s.outputMin else out1
         if out2 > s.outputMax then s.outputMax else out2)) :=
  ⟨by norm_num, C6_pid_integral_invariant 1 2 3 (-20) 20 1 (by norm_num) [(3, 1), (50, 2)]⟩

/-- C7: while tracking, the pre-clamp X-mixing sums cancel pairwise
(`s0+s2 = 0`, `s1+s3 = 0`) and the four stored servo angles are exactly the
clamps of `p+y`, `p-y`, `-p-y`, `-p+y` to `[cmdMin, cmdMax]`, where `p`, `y`
are the pitch and yaw commands stored by the same call. -/
theorem C7_servo_mixing (g : GuidanceState) (pidX pidY : PIDController)
    (ex ey dt : ℝ) (h : g.tracking = true) :
    let res := (guidanceUpdate ex ey dt g pidX pidY).1
    let p := res.pitchCmd
    let y := res.yawCmd
    let clampS : ℝ → ℝ := fun s =>
      if s < g.cmdMin then g.cmdMin else if s > g.cmdMax then g.cmdMax else s
    ((p + y) + (-p - y) = 0 ∧ (p - y) + (-p + y) = 0) ∧
    res.servoAngles 0 = clampS (p + y) ∧
    res.servoAngles 1 = clampS (p - y) ∧
    res.servoAngles 2 = clampS (-p - y) ∧
    res.servoAngles 3 = clampS (-p + y) := by
  rw [guidanceUpdate, h]
  simp only [Bool.true_eq_false, if_false]
  refine ⟨⟨by ring, by ring⟩, rfl, rfl, rfl, rfl⟩

/-- Witness for C7 at a concrete guidance state. -/
def gTrack : GuidanceState :=
  { rawErrorX := 0, rawErrorY := 0, filteredErrorX := 0, filteredErrorY := 0,
    pitchCmd := 0, yawCmd := 0, servoAngles := fun _ => 0,
    alpha := 0.6, cmdMin := -25, cmdMax := 25, tracking := true }

theorem C7_witness :
    gTrack.tracking = true ∧
    (let res := (guidanceUpdate 8 (-3) 0.1 gTrack (pidInit 0.5 0 0.1 (-25) 25 0.6)
        (pidInit 0.5 0 0.1 (-25) 25 0.6)).1
     let p := res.pitchCmd
     let y := res.yawCmd
     let clampS : ℝ → ℝ := fun s =>
       if s < gTrack.cmdMin then gTrack.cmdMin else if s > gTrack.cmdMax then gTrack.cmdMax else s
     ((p + y) + (-p - y) = 0 ∧ (p - y) + (-p + y) = 0) ∧
     res.servoAngles 0 = clampS (p + y) ∧
     res.servoAngles 1 = clampS (p - y) ∧
     res.servoAngles 2 = clampS (-p - y) ∧
     res.servoAngles 3 = clampS (-p + y)) :=
  ⟨rfl, C7_servo_mixing gTrack (pidInit 0.5 0 0.1 (-25) 25 0.6)
    (pidInit 0.5 0 0.1 (-25) 25 0.6) 8 (-3) 0.1 rfl⟩

/-- C8: `fusionUpdateGps` records the fix (latitude, longitude, altitude,
timestamp, fix flag), multiplies each accumulated IMU offset by exactly the
blend factor alpha, and leaves the velocity estimates unchanged. -/
theorem C8_fusionUpdateGps (f : SensorFusionState) (lat lon alt : ℝ) (ts : ℤ) :
    (fusionUpdateGps lat lon alt ts f).gpsLat = lat ∧
    (fusionUpdateGps lat lon alt ts f).gpsLon = lon ∧
    (fusionUpdateGps lat lon alt ts f).gpsAlt = alt ∧
    (fusionUpdateGps lat lon alt ts f).gpsTimestamp = ts ∧
    (fusionUpdateGps lat lon alt ts f).hasGpsFix = true ∧
    (fusionUpdateGps lat lon alt ts f).offsetN = f.alpha * f.offsetN ∧
    (fusionUpdateGps lat lon alt ts f).offsetE = f.alpha * f.offsetE ∧
    (fusionUpdateGps lat lon alt ts f).offsetD = f.alpha * f.offsetD ∧
    (fusionUpdateGps lat lon alt ts f).velN = f.velN ∧
    (fusionUpdateGps lat lon alt ts f).velE = f.velE ∧
    (fusionUpdateGps lat lon alt ts f).velD = f.velD := by
  refine ⟨rfl, rfl, rfl, rfl, rfl, ?_, ?_, ?_, rfl, rfl, rfl⟩ <;>
    simp only [fusionUpdateGps] <;> ring

/-- C9: `pidUpdate` returns the low-pass-filtered P+I+D sum clamped to
`[outputMin, outputMax]` but retains the unclamped filtered value as
`prevOutput`; on a concrete input sequence the retained `prevOutput` lies
strictly above `outputMax` (and the next call blends against that stored
value, as the first conjunct shows). -/
theorem C9_pid_prevOutput_unclamped :
    (∀ (s : PIDController) (e dt : ℝ), s.inited = true →
      (pidUpdate e dt s).1.prevOutput =
        (let dt1 := if dt ≤ 0 then (0.033 : ℝ) else dt
         s.alpha * (s.kp * e + s.ki * (pidUpdate e dt s).1.integral
             + s.kd * ((e - s.prevError) / dt1)) + (1 - s.alpha) * s.prevOutput) ∧
      (pidUpdate e dt s).2 =
        (let out1 := (pidUpdate e dt s).1.prevOutput
         let out2 := if out1 < s.outputMin then s.outputMin else out1
         if out2 > s.outputMax then s.outputMax else out2)) ∧
    ((pidUpdate 10 1 (pidInit 1 0 0 (-1) 1 1)).1.prevOutput = 10 ∧
      (pidInit (1:ℝ) 0 0 (-1) 1 1).outputMax = 1 ∧ (1 : ℝ) < 10 ∧
      (pidUpdate 10 1 (pidInit 1 0 0 (-1) 1 1)).2 = 1) := by
  constructor
  · intro s e dt hinit
    rw [pidUpdate, hinit]
    simp only [Bool.true_eq_false, if_false]
    exact ⟨trivial, trivial⟩
  · refine ⟨?_, rfl, by norm_num, ?_⟩ <;>
      · rw [pidUpdate]
        norm_num [pidInit]

/-- Witness for C9's universally quantified part at a concrete controller. -/
theorem C9_witness :
    (pidInit (2:ℝ) 1 1 (-5) 5 0.5).inited = true ∧
    ((pidUpdate 4 2 (pidInit 2 1 1 (-5) 5 0.5)).1.prevOutput =
        (let dt1 := if (2:ℝ) ≤ 0 then (0.033 : ℝ) else 2
         (pidInit (2:ℝ) 1 1 (-5) 5 0.5).alpha *
             ((pidInit (2:ℝ) 1 1 (-5) 5 0.5).kp * 4 +
               (pidInit (2:ℝ) 1 1 (-5) 5 0.5).ki *
                 (pidUpdate 4 2 (pidInit 2 1 1 (-5) 5 0.5)).1.integral
             + (pidInit (2:ℝ) 1 1 (-5) 5 0.5).kd *
                 ((4 - (pidInit (2:ℝ) 1 1 (-5) 5 0.5).prevError) / dt1)) +
           (1 - (pidInit (2:ℝ) 1 1 (-5) 5 0.5).alpha) *
             (pidInit (2:ℝ) 1 1 (-5) 5 0.5).prevOutput) ∧
      (pidUpdate 4 2 (pidInit 2 1 1 (-5) 5 0.5)).2 =
        (let out1 := (pidUpdate 4 2 (pidInit 2 1 1 (-5) 5 0.5)).1.prevOutput
         let out2 := if out1 < (pidInit (2:ℝ) 1 1 (-5) 5 0.5).outputMin
             then (pidInit (2:ℝ) 1 1 (-5) 5 0.5).outputMin else out1
         if out2 > (pidInit (2:ℝ) 1 1 (-5) 5 0.5).outputMax
             then (pidInit (2:ℝ) 1 1 (-5) 5 0.5).outputMax else out2)) :=
  ⟨rfl, C9_pid_prevOutput_unclamped.1 (pidInit 2 1 1 (-5) 5 0.5) 4 2 rfl⟩

/-! ## Object tracker (`object_tracker.cpp`)

Only the parts the claims touch are modelled: the multi-object
`objects`/`objectCount` bookkeeping of `trackerProcessDetections` is
independent of `trackerUpdate` and is omitted from the state. -/

inductive TrackingMode where
  | off
  | search
  | track
  | lost
deriving DecidableEq

/-- A detection rectangle `(centerX, centerY, w, h)`: one entry of the
`detectedRects` array. -/
structure Rect where
  x : ℤ
  y : ℤ
  w : ℤ
  h : ℤ
deriving DecidableEq

@[ext]
structure TrackerState where
  mode : TrackingMode
  enablePrediction : Bool
  imageWidth : ℤ
  imageHeight : ℤ
  lastX : ℤ
  lastY : ℤ
  lastW : ℤ
  lastH : ℤ
  predictedX : ℤ
  predictedY : ℤ
  confidence : ℝ

/-- `distance(x1, y1, x2, y2)`. -/
def distance (x1 y1 x2 y2 : ℤ) : ℝ :=
  Real.sqrt (((x2 - x1 : ℤ) : ℝ) * ((x2 - x1 : ℤ) : ℝ) +
             ((y2 - y1 : ℤ) : ℝ) * ((y2 - y1 : ℤ) : ℝ))

/-- The best-candidate scan of `trackerUpdate` steps 3 and (fallback) 3b:
walk the detection list keeping the current best rectangle and best distance,
replacing them whenever a strictly smaller distance to `(px, py)` is seen. -/
def scanBest (px py : ℤ) : List Rect → Option Rect × ℝ → Option Rect × ℝ
  | [], acc => acc
  | r :: rs, acc =>
      let d := distance r.x r.y px py
      if d < acc.2 then scanBest px py rs (some r, d) else scanBest px py rs acc

/-- The values written through `outX/outY/outW/outH/outConfidence` when
`trackerUpdate` returns 1. -/
structure TrackOut where
  x : ℤ
  y : ℤ
  w : ℤ
  h : ℤ
  conf : ℝ

/-- Result of one `trackerUpdate` call: the returned flag, the new tracker and
Kalman states, and the output parameters (`none` when the call returns 0
without writing them). -/
structure TrackResult where
  found : Bool
  t : TrackerState
  k : KalmanState
  out : Option TrackOut

/-- The gating radius `max(imageWidth/2, imageHeight/2, 500)` of
`trackerUpdate` step 3 (depends only on the image dimensions, which the
predicted-point write leaves unchanged). -/
def gatingRadius (t : TrackerState) : ℝ :=
  max (max ((Int.tdiv t.imageWidth 2 : ℤ) : ℝ) ((Int.tdiv t.imageHeight 2 : ℤ) : ℝ)) 500

/-- `trackerUpdate(detectedRects, detectedCount, ...)`. -/
def trackerUpdate (t : TrackerState) (k : KalmanState) (dets : List Rect) :
    TrackResult :=
  if t.mode ≠ TrackingMode.track then ⟨false, t, k, none⟩
  else if t.lastX < 0 ∨ t.lastY < 0 then ⟨false, t, k, none⟩
  else
    let pk := kalmanPredict k
    let k1 := pk.1
    let t1 := { t with predictedX := itrunc pk.2.1, predictedY := itrunc pk.2.2 }
    if dets.length = 0 then
      if t1.enablePrediction = false then ⟨false, t1, k1, none⟩
      else if kalmanGetUncertainty k1 < 200 then
        ⟨true, { t1 with lastX := t1.predictedX, lastY := t1.predictedY }, k1,
          some ⟨t1.predictedX, t1.predictedY, t1.lastW, t1.lastH, 0.5⟩⟩
      else ⟨false, t1, k1, none⟩
    else
      let searchRadius : ℝ := gatingRadius t
      let first := scanBest t1.predictedX t1.predictedY dets (none, searchRadius)
      let best := if first.1 = none then
          scanBest t1.predictedX t1.predictedY dets (none, 1e10) else first
      match best.1 with
      | some r =>
          let k2 := kalmanUpdate (r.x : ℝ) (r.y : ℝ) k1
          let conf := max 0.3 (min 1 (1 - best.2 / searchRadius))
          let t2 := { t1 with lastX := r.x, lastY := r.y, lastW := r.w, lastH := r.h,
                              confidence := conf }
          if t2.enablePrediction = false then ⟨true, t2, k2, some ⟨r.x, r.y, r.w, r.h, conf⟩⟩
          else ⟨true, t2, k2, some ⟨itrunc (k2.state 0), itrunc (k2.state 1), r.w, r.h, conf⟩⟩
      | none =>
          if t1.enablePrediction = false then
            ⟨false, { t1 with mode := TrackingMode.lost }, k1, none⟩
          else if 0 ≤ t1.lastX then
            ⟨true, { t1 with lastX := t1.predictedX, lastY := t1.predictedY }, k1,
              some ⟨t1.predictedX, t1.predictedY, t1.lastW, t1.lastH, 0.3⟩⟩
          else ⟨false, { t1 with mode := TrackingMode.lost }, kalmanReset k1, none⟩

/-- `trackerStartTracking(x, y, w, h)`. -/
def trackerStartTracking (x y w h : ℤ) (t : TrackerState) (k : KalmanState) :
    TrackerState × KalmanState :=
  ({ t with lastX := x, lastY := y, lastW := w, lastH := h,
            mode := TrackingMode.track, confidence := 1 },
   kalmanInit (x : ℝ) (y : ℝ) 300 1)

/-- `trackerGetConfidence()`. -/
def trackerGetConfidence (t : TrackerState) (k : KalmanState) : ℝ :=
  if t.mode = TrackingMode.track ∧ 0 ≤ t.lastX then
    (500 - kalmanGetUncertainty k) / 500
  else 0

/-- The tracker state right after `trackerInit()` (also the initial static
value of the `tracker` variable). -/
def trackerInitState : TrackerState :=
  { mode := TrackingMode.off, enablePrediction := false,
    imageWidth := 1280, imageHeight := 720,
    lastX := -1, lastY := -1, lastW := 0, lastH := 0,
    predictedX := 0, predictedY := 0, confidence := 0 }

/-- `trackerReset()` (tracker half; the Kalman half is `kalmanReset`). -/
def trackerResetState (t : TrackerState) : TrackerState :=
  { t with mode := TrackingMode.off, lastX := -1, lastY := -1, lastW := 0, lastH := 0,
           confidence := 0 }

/-- The mutating tracker API calls, for the reachability relation. -/
inductive TrackerOp where
  | doInit
  | startTracking (x y w h : ℤ)
  | setImageSize (w h : ℤ)
  | update (dets : List Rect)
  | reset
  | stop
  | enablePred (b : Bool)

/-- Effect of each API call on the combined (tracker, Kalman) state. -/
def applyOp : TrackerOp → TrackerState × KalmanState → TrackerState × KalmanState
  | .doInit, (_, k) => (trackerInitState, k)
  | .startTracking x y w h, (t, k) => trackerStartTracking x y w h t k
  | .setImageSize w h, (t, k) => ({ t with imageWidth := w, imageHeight := h }, k)
  | .update dets, (t, k) => let r := trackerUpdate t k dets; (r.t, r.k)
  | .reset, (t, k) => (trackerResetState t, kalmanReset k)
  | .stop, (t, k) => ({ t with mode := TrackingMode.off }, k)
  | .enablePred b, (t, k) => ({ t with enablePrediction := b }, k)

/-- Reachable combined states: the static initial state, closed under the
tracker API. -/
inductive Reach : TrackerState × KalmanState → Prop where
  | start : Reach (trackerInitState, kalmanZero)
  | step (op : TrackerOp) {s : TrackerState × KalmanState} :
      Reach s → Reach (applyOp op s)

/-! ## Tracker lemmas -/

theorem scanBest_spec (px py : ℤ) (l : List Rect) (acc : Option Rect × ℝ) :
    (scanBest px py l acc).2 ≤ acc.2 ∧
    (∀ r ∈ l, (scanBest px py l acc).2 ≤ distance r.x r.y px py) ∧
    (scanBest px py l acc = acc ∨
      ∃ r ∈ l, (scanBest px py l acc).1 = some r ∧
        (scanBest px py l acc).2 = distance r.x r.y px py ∧
        (scanBest px py l acc).2 < acc.2) := by
  induction l generalizing acc with
  | nil => exact ⟨le_refl _, by simp, Or.inl rfl⟩
  | cons hd tl ih =>
    simp only [scanBest]
    by_cases hlt : distance hd.x hd.y px py < acc.2
    · rw [if_pos hlt]
      obtain ⟨h1, h2, h3⟩ := ih (some hd, distance hd.x hd.y px py)
      refine ⟨le_trans h1 (le_of_lt hlt), ?_, ?_⟩
      · intro r hr
        rcases List.mem_cons.mp hr with rfl | hr
        · exact h1
        · exact h2 r hr
      · rcases h3 with heq | ⟨r, hr, hsome, hd2, hlt2⟩
        · refine Or.inr ⟨hd, List.mem_cons_self hd tl, ?_, ?_, ?_⟩
          · rw [heq]
          · rw [heq]
          · rw [heq]; exact hlt
        · exact Or.inr ⟨r, List.mem_cons_of_mem hd hr, hsome, hd2,
            lt_trans hlt2 hlt⟩
    · rw [if_neg hlt]
      obtain ⟨h1, h2, h3⟩ := ih acc
      refine ⟨h1, ?_, ?_⟩
      · intro r hr
        rcases List.mem_cons.mp hr with rfl | hr
        · exact le_trans h1 (not_lt.mp hlt)
        · exact h2 r hr
      · rcases h3 with heq | ⟨r, hr, hsome, hd2, hlt2⟩
        · exact Or.inl heq
        · exact Or.inr ⟨r, List.mem_cons_of_mem hd hr, hsome, hd2, hlt2⟩

theorem scanBest_found (px py : ℤ) (l : List Rect) (c : ℝ)
    (h : ∃ r ∈ l, distance r.x r.y px py < c) :
    ∃ r ∈ l, (scanBest px py l (none, c)).1 = some r ∧
      (scanBest px py l (none, c)).2 = distance r.x r.y px py ∧
      ∀ r' ∈ l, distance r.x r.y px py ≤ distance r'.x r'.y px py := by
  obtain ⟨h1, h2, h3⟩ := scanBest_spec px py l (none, c)
  rcases h3 with heq | ⟨r, hr, hsome, hd2, _⟩
  · exfalso
    obtain ⟨r0, hr0, hlt⟩ := h
    have hle := h2 r0 hr0
    rw [heq] at hle
    exact absurd (lt_of_le_of_lt hle hlt) (lt_irrefl _)
  · exact ⟨r, hr, hsome, hd2, fun r' hr' => hd2 ▸ h2 r' hr'⟩

/-- Behaviour of `trackerUpdate` on an empty detection list (shared between
several claims). -/
theorem trackerUpdate_empty_spec (t : TrackerState) (k : KalmanState)
    (hm : t.mode = TrackingMode.track) (hx : 0 ≤ t.lastX) (hy : 0 ≤ t.lastY) :
    (t.enablePrediction = false →
      trackerUpdate t k [] =
        ⟨false, { t with predictedX := itrunc (kalmanPredict k).2.1,
                         predictedY := itrunc (kalmanPredict k).2.2 },
          (kalmanPredict k).1, none⟩) ∧
    (t.enablePrediction = true → kalmanGetUncertainty (kalmanPredict k).1 < 200 →
      trackerUpdate t k [] =
        ⟨true, { t with predictedX := itrunc (kalmanPredict k).2.1,
                        predictedY := itrunc (kalmanPredict k).2.2,
                        lastX := itrunc (kalmanPredict k).2.1,
                        lastY := itrunc (kalmanPredict k).2.2 },
          (kalmanPredict k).1,
          some ⟨itrunc (kalmanPredict k).2.1, itrunc (kalmanPredict k).2.2,
                t.lastW, t.lastH, 0.5⟩⟩) ∧
    (t.enablePrediction = true → 200 ≤ kalmanGetUncertainty (kalmanPredict k).1 →
      trackerUpdate t k [] =
        ⟨false, { t with predictedX := itrunc (kalmanPredict k).2.1,
                         predictedY := itrunc (kalmanPredict k).2.2 },
          (kalmanPredict k).1, none⟩) := by
  have hgate : ¬(t.mode ≠ TrackingMode.track) := by rw [hm]; exact fun h => h rfl
  have hneg : ¬(t.lastX < 0 ∨ t.lastY < 0) := by
    push_neg
    exact ⟨hx, hy⟩
  refine ⟨?_, ?_, ?_⟩
  · intro hp
    rw [trackerUpdate, if_neg hgate, if_neg hneg]
    simp only [List.length_nil, if_true, hp]
  · intro hp hu
    rw [trackerUpdate, if_neg hgate, if_neg hneg]
    simp only [List.length_nil, if_true, hp, Bool.true_eq_false, if_false,
      if_pos hu]
  · intro hp hu
    rw [trackerUpdate, if_neg hgate, if_neg hneg]
    simp only [List.length_nil, if_true, hp, Bool.true_eq_false, if_false,
      if_neg (not_lt.mpr hu)]

/-- C3: on an empty detection list in Track mode with a valid last-known
position, `trackerUpdate` returns not-found when prediction is disabled;
with prediction enabled and post-predict uncertainty < 200 it returns found
with the Kalman-predicted point, the last-known width/height, confidence
exactly 0.5, and adopts the predicted point as the new last-known position;
with uncertainty >= 200 it returns not-found. -/
theorem C3_trackerUpdate_empty (t : TrackerState) (k : KalmanState)
    (hm : t.mode = TrackingMode.track) (hx : 0 ≤ t.lastX) (hy : 0 ≤ t.lastY) :
    (t.enablePrediction = false →
      trackerUpdate t k [] =
        ⟨false, { t with predictedX := itrunc (kalmanPredict k).2.1,
                         predictedY := itrunc (kalmanPredict k).2.2 },
          (kalmanPredict k).1, none⟩) ∧
    (t.enablePrediction = true → kalmanGetUncertainty (kalmanPredict k).1 < 200 →
      trackerUpdate t k [] =
        ⟨true, { t with predictedX := itrunc (kalmanPredict k).2.1,
                        predictedY := itrunc (kalmanPredict k).2.2,
                        lastX := itrunc (kalmanPredict k).2.1,
                        lastY := itrunc (kalmanPredict k).2.2 },
          (kalmanPredict k).1,
          some ⟨itrunc (kalmanPredict k).2.1, itrunc (kalmanPredict k).2.2,
                t.lastW, t.lastH, 0.5⟩⟩) ∧
    (t.enablePrediction = true → 200 ≤ kalmanGetUncertainty (kalmanPredict k).1 →
      trackerUpdate t k [] =
        ⟨false, { t with predictedX := itrunc (kalmanPredict k).2.1,
                         predictedY := itrunc (kalmanPredict k).2.2 },
          (kalmanPredict k).1, none⟩) :=
  trackerUpdate_empty_spec t k hm hx hy

/-- A tracker state in Track mode with a valid last-known position and
prediction disabled. -/
def tTrackA : TrackerState :=
  { trackerInitState with mode := TrackingMode.track, lastX := 100, lastY := 100 }

/-- Same as `tTrackA` with prediction enabled. -/
def tTrackB : TrackerState := { tTrackA with enablePrediction := true }

theorem kSingular_uncertainty_lt :
    kalmanGetUncertainty (kalmanPredict kSingular).1 < 200 := by
  simp [kalmanGetUncertainty, kalmanPredict, kSingular, kalmanZero, matMul4x4,
    matVec4, Fmat, Matrix.vecHead, Matrix.vecTail]

theorem kInit_predict_P00 (x y : ℝ) :
    (kalmanPredict (kalmanInit x y 300 1)).1.P 0 0 = 410 := by
  simp [kalmanPredict, kalmanInit, diagP, matMul4x4, matVec4, Fmat,
    Matrix.vecHead, Matrix.vecTail]
  norm_num

theorem kInit_predict_P11 (x y : ℝ) :
    (kalmanPredict (kalmanInit x y 300 1)).1.P 1 1 = 410 := by
  simp [kalmanPredict, kalmanInit, diagP, matMul4x4, matVec4, Fmat,
    Matrix.vecHead, Matrix.vecTail]
  norm_num

theorem kInit_uncertainty_ge :
    200 ≤ kalmanGetUncertainty (kalmanPredict (kalmanInit 100 100 300 1)).1 := by
  rw [kalmanGetUncertainty, kInit_predict_P00 100 100, kInit_predict_P11 100 100,
    Real.le_sqrt' (by norm_num)]
  norm_num

/-- Witness for C3: the three branches at concrete states. -/
theorem C3_witness :
    (tTrackA.mode = TrackingMode.track ∧ (0:ℤ) ≤ tTrackA.lastX ∧ (0:ℤ) ≤ tTrackA.lastY ∧
      tTrackA.enablePrediction = false ∧
      trackerUpdate tTrackA kalmanZero [] =
        ⟨false, { tTrackA with predictedX := itrunc (kalmanPredict kalmanZero).2.1,
                               predictedY := itrunc (kalmanPredict kalmanZero).2.2 },
          (kalmanPredict kalmanZero).1, none⟩) ∧
    (tTrackB.enablePrediction = true ∧
      kalmanGetUncertainty (kalmanPredict kSingular).1 < 200 ∧
      trackerUpdate tTrackB kSingular [] =
        ⟨true, { tTrackB with predictedX := itrunc (kalmanPredict kSingular).2.1,
                              predictedY := itrunc (kalmanPredict kSingular).2.2,
                              lastX := itrunc (kalmanPredict kSingular).2.1,
                              lastY := itrunc (kalmanPredict kSingular).2.2 },
          (kalmanPredict kSingular).1,
          some ⟨itrunc (kalmanPredict kSingular).2.1, itrunc (kalmanPredict kSingular).2.2,
                tTrackB.lastW, tTrackB.lastH, 0.5⟩⟩) ∧
    (200 ≤ kalmanGetUncertainty (kalmanPredict (kalmanInit 100 100 300 1)).1 ∧
      trackerUpdate tTrackB (kalmanInit 100 100 300 1) [] =
        ⟨false,
          { tTrackB with
              predictedX := itrunc (kalmanPredict (kalmanInit 100 100 300 1)).2.1,
              predictedY := itrunc (kalmanPredict (kalmanInit 100 100 300 1)).2.2 },
          (kalmanPredict (kalmanInit 100 100 300 1)).1, none⟩) := by
  refine ⟨⟨rfl, by norm_num [tTrackA, trackerInitState],
           by norm_num [tTrackA, trackerInitState], rfl, ?_⟩,
          ⟨rfl, kSingular_uncertainty_lt, ?_⟩,
          ⟨kInit_uncertainty_ge, ?_⟩⟩
  · exact (C3_trackerUpdate_empty tTrackA kalmanZero rfl
      (by norm_num [tTrackA, trackerInitState])
      (by norm_num [tTrackA, trackerInitState])).1 rfl
  · exact (C3_trackerUpdate_empty tTrackB kSingular rfl
      (by norm_num [tTrackB, tTrackA, trackerInitState])
      (by norm_num [tTrackB, tTrackA, trackerInitState])).2.1 rfl
      kSingular_uncertainty_lt
  · exact (C3_trackerUpdate_empty tTrackB (kalmanInit 100 100 300 1) rfl
      (by norm_num [tTrackB, tTrackA, trackerInitState])
      (by norm_num [tTrackB, tTrackA, trackerInitState])).2.2 rfl
      kInit_uncertainty_ge

theorem distance_lt_big {x y px py : ℤ} (hx : |x| ≤ 2 ^ 31) (hy : |y| ≤ 2 ^ 31)
    (hpx : |px| ≤ 2 ^ 31) (hpy : |py| ≤ 2 ^ 31) :
    distance x y px py < 1e10 := by
  rw [distance, Real.sqrt_lt' (by norm_num : (0:ℝ) < 1e10)]
  have habs : ∀ a b : ℤ, |a| ≤ 2 ^ 31 → |b| ≤ 2 ^ 31 →
      ((b - a : ℤ) : ℝ) * ((b - a : ℤ) : ℝ) ≤ 2 ^ 32 * 2 ^ 32 := by
    intro a b ha hb
    have h1 : |b - a| ≤ (2 : ℤ) ^ 32 := by
      have h2 : |b - a| ≤ |b| + |a| := by
        rw [sub_eq_add_neg]
        exact (abs_add b (-a)).trans (by rw [abs_neg])
      have : |b| + |a| ≤ (2:ℤ) ^ 31 + 2 ^ 31 := add_le_add hb ha
      calc |b - a| ≤ (2:ℤ) ^ 31 + 2 ^ 31 := le_trans h2 this
        _ = 2 ^ 32 := by norm_num
    have h3 : |((b - a : ℤ) : ℝ)| ≤ 2 ^ 32 := by exact_mod_cast h1
    calc ((b - a : ℤ) : ℝ) * ((b - a : ℤ) : ℝ)
        = |((b - a : ℤ) : ℝ)| * |((b - a : ℤ) : ℝ)| := (abs_mul_abs_self _).symm
      _ ≤ 2 ^ 32 * 2 ^ 32 := mul_le_mul h3 h3 (abs_nonneg _) (by norm_num)
  have e1 := habs x px hx hpx
  have e2 := habs y py hy hpy
  calc ((px - x : ℤ) : ℝ) * ((px - x : ℤ) : ℝ) + ((py - y : ℤ) : ℝ) * ((py - y : ℤ) : ℝ)
      ≤ 2 ^ 32 * 2 ^ 32 + 2 ^ 32 * 2 ^ 32 := add_le_add e1 e2
    _ < 1e10 ^ 2 := by norm_num

/-- Step 3 (with fallback 3b) of `trackerUpdate`: on a non-empty detection
list whose distances to the predicted point are all below the fallback
sentinel `1e10`, the two-pass scan always selects a globally distance-minimal
detection. -/
theorem trackerSelect_spec (px py : ℤ) (dets : List Rect) (c : ℝ)
    (hne : dets ≠ []) (hall : ∀ r ∈ dets, distance r.x r.y px py < 1e10) :
    ∃ r ∈ dets,
      (if (scanBest px py dets (none, c)).1 = none then
          scanBest px py dets (none, 1e10) else scanBest px py dets (none, c)).1 = some r ∧
      (if (scanBest px py dets (none, c)).1 = none then
          scanBest px py dets (none, 1e10) else scanBest px py dets (none, c)).2 =
        distance r.x r.y px py ∧
      ∀ r' ∈ dets, distance r.x r.y px py ≤ distance r'.x r'.y px py := by
  by_cases h1 : (scanBest px py dets (none, c)).1 = none
  · rw [if_pos h1]
    obtain ⟨hd, hhd⟩ := List.exists_mem_of_ne_nil dets hne
    obtain ⟨r, hr, hsome, hdist, hmin⟩ :=
      scanBest_found px py dets 1e10 ⟨hd, hhd, hall hd hhd⟩
    exact ⟨r, hr, hsome, hdist, hmin⟩
  · rw [if_neg h1]
    obtain ⟨hle, h2, h3⟩ := scanBest_spec px py dets (none, c)
    rcases h3 with heq | ⟨r, hr, hsome, hdist, _⟩
    · exact absurd (by rw [heq]) h1
    · exact ⟨r, hr, hsome, hdist, fun r' hr' => hdist ▸ h2 r' hr'⟩

/-- C4: in Track mode with a valid last-known position, `trackerUpdate` on any
non-empty (int32-coordinate) detection list returns found; it selects a
detection at globally minimal distance from the predicted point (the gating
radius only seeds the first scan; the fallback scan never rejects on distance
alone), feeds it to `kalmanUpdate`, stores it as the last-known rect, and
reports confidence `clamp(1 - bestDistance/gatingRadius, 0.3, 1.0)`. -/
theorem C4_trackerUpdate_nonempty (t : TrackerState) (k : KalmanState)
    (dets : List Rect)
    (hm : t.mode = TrackingMode.track) (hx : 0 ≤ t.lastX) (hy : 0 ≤ t.lastY)
    (hne : dets ≠ [])
    (hb : ∀ r ∈ dets, |r.x| ≤ 2 ^ 31 ∧ |r.y| ≤ 2 ^ 31)
    (hpx : |itrunc (kalmanPredict k).2.1| ≤ 2 ^ 31)
    (hpy : |itrunc (kalmanPredict k).2.2| ≤ 2 ^ 31) :
    (trackerUpdate t k dets).found = true ∧
    ∃ r ∈ dets,
      (∀ r' ∈ dets,
        distance r.x r.y (itrunc (kalmanPredict k).2.1) (itrunc (kalmanPredict k).2.2) ≤
        distance r'.x r'.y (itrunc (kalmanPredict k).2.1) (itrunc (kalmanPredict k).2.2)) ∧
      (trackerUpdate t k dets).k =
        kalmanUpdate (r.x : ℝ) (r.y : ℝ) (kalmanPredict k).1 ∧
      (trackerUpdate t k dets).t.lastX = r.x ∧
      (trackerUpdate t k dets).t.lastY = r.y ∧
      (trackerUpdate t k dets).t.lastW = r.w ∧
      (trackerUpdate t k dets).t.lastH = r.h ∧
      (trackerUpdate t k dets).t.confidence =
        max 0.3 (min 1 (1 -
          distance r.x r.y (itrunc (kalmanPredict k).2.1) (itrunc (kalmanPredict k).2.2) /
            gatingRadius t)) ∧
      ∃ o, (trackerUpdate t k dets).out = some o ∧ o.w = r.w ∧ o.h = r.h ∧
        o.conf = (trackerUpdate t k dets).t.confidence := by
  have hgate : ¬(t.mode ≠ TrackingMode.track) := by rw [hm]; exact fun h => h rfl
  have hneg : ¬(t.lastX < 0 ∨ t.lastY < 0) := by
    push_neg
    exact ⟨hx, hy⟩
  have hlen : ¬(dets.length = 0) := by
    simpa [List.length_eq_zero] using hne
  have hall : ∀ r ∈ dets, distance r.x r.y (itrunc (kalmanPredict k).2.1)
      (itrunc (kalmanPredict k).2.2) < 1e10 := by
    intro r hr
    exact distance_lt_big (hb r hr).1 (hb r hr).2 hpx hpy
  obtain ⟨r, hr, hsome, hdist, hmin⟩ :=
    trackerSelect_spec (itrunc (kalmanPredict k).2.1) (itrunc (kalmanPredict k).2.2)
      dets (gatingRadius t) hne hall
  rw [trackerUpdate, if_neg hgate, if_neg hneg]
  simp only [hlen, if_false, hsome, hdist]
  by_cases hep : t.enablePrediction = false
  · simp only [hep, eq_self_iff_true, if_true]
    refine ⟨?_, r, hr, hmin, ?_, ?_, ?_, ?_, ?_, ?_, ?_⟩ <;>
      first
        | trivial
        | rfl
        | exact ⟨_, rfl, rfl, rfl, rfl⟩
  · have hep2 : t.enablePrediction = true := by
      revert hep
      cases t.enablePrediction <;> simp
    simp only [hep2, Bool.true_eq_false, if_false]
    refine ⟨?_, r, hr, hmin, ?_, ?_, ?_, ?_, ?_, ?_, ?_⟩ <;>
      first
        | trivial
        | rfl
        | exact ⟨_, rfl, rfl, rfl, rfl⟩

theorem itrunc_zero : itrunc 0 = 0 := by
  rw [itrunc, if_pos le_rfl]
  exact Int.floor_zero

/-- A one-element detection list with small coordinates. -/
def detsW : List Rect := [⟨6, 8, 2, 2⟩]

/-- Witness for C4 at a concrete state and detection list. -/
theorem C4_witness :
    (tTrackA.mode = TrackingMode.track ∧ (0:ℤ) ≤ tTrackA.lastX ∧ (0:ℤ) ≤ tTrackA.lastY ∧
      detsW ≠ [] ∧
      (∀ r ∈ detsW, |r.x| ≤ 2 ^ 31 ∧ |r.y| ≤ 2 ^ 31) ∧
      |itrunc (kalmanPredict kalmanZero).2.1| ≤ 2 ^ 31 ∧
      |itrunc (kalmanPredict kalmanZero).2.2| ≤ 2 ^ 31) ∧
    ((trackerUpdate tTrackA kalmanZero detsW).found = true ∧
    ∃ r ∈ detsW,
      (∀ r' ∈ detsW,
        distance r.x r.y (itrunc (kalmanPredict kalmanZero).2.1)
            (itrunc (kalmanPredict kalmanZero).2.2) ≤
        distance r'.x r'.y (itrunc (kalmanPredict kalmanZero).2.1)
            (itrunc (kalmanPredict kalmanZero).2.2)) ∧
      (trackerUpdate tTrackA kalmanZero detsW).k =
        kalmanUpdate (r.x : ℝ) (r.y : ℝ) (kalmanPredict kalmanZero).1 ∧
      (trackerUpdate tTrackA kalmanZero detsW).t.lastX = r.x ∧
      (trackerUpdate tTrackA kalmanZero detsW).t.lastY = r.y ∧
      (trackerUpdate tTrackA kalmanZero detsW).t.lastW = r.w ∧
      (trackerUpdate tTrackA kalmanZero detsW).t.lastH = r.h ∧
      (trackerUpdate tTrackA kalmanZero detsW).t.confidence =
        max 0.3 (min 1 (1 -
          distance r.x r.y (itrunc (kalmanPredict kalmanZero).2.1)
              (itrunc (kalmanPredict kalmanZero).2.2) / gatingRadius tTrackA)) ∧
      ∃ o, (trackerUpdate tTrackA kalmanZero detsW).out = some o ∧ o.w = r.w ∧ o.h = r.h ∧
        o.conf = (trackerUpdate tTrackA kalmanZero detsW).t.confidence) := by
  have hpx : |itrunc (kalmanPredict kalmanZero).2.1| ≤ (2:ℤ) ^ 31 := by
    have h0 : (kalmanPredict kalmanZero).2.1 = 0 := rfl
    rw [h0, itrunc_zero]
    decide
  have hpy : |itrunc (kalmanPredict kalmanZero).2.2| ≤ (2:ℤ) ^ 31 := by
    have h0 : (kalmanPredict kalmanZero).2.2 = 0 := rfl
    rw [h0, itrunc_zero]
    decide
  have hb : ∀ r ∈ detsW, |r.x| ≤ (2:ℤ) ^ 31 ∧ |r.y| ≤ (2:ℤ) ^ 31 := by
    intro r hr
    rw [detsW, List.mem_singleton] at hr
    subst hr
    exact ⟨by decide, by decide⟩
  refine ⟨⟨rfl, by norm_num [tTrackA, trackerInitState],
          by norm_num [tTrackA, trackerInitState], by simp [detsW], hb, hpx, hpy⟩, ?_⟩
  exact C4_trackerUpdate_nonempty tTrackA kalmanZero detsW rfl
    (by norm_num [tTrackA, trackerInitState]) (by norm_num [tTrackA, trackerInitState])
    (by simp [detsW]) hb hpx hpy

/-- C10: `trackerUpdate` never changes the tracking mode (for int32-bounded
inputs, the fallback scan always selects some detection, so the Lost
assignments are dead code); in particular an empty list with prediction
disabled reports not-found with the mode still Track. -/
theorem C10_trackerUpdate_mode_constant (t : TrackerState) (k : KalmanState)
    (dets : List Rect)
    (hb : ∀ r ∈ dets, |r.x| ≤ 2 ^ 31 ∧ |r.y| ≤ 2 ^ 31)
    (hpx : |itrunc (kalmanPredict k).2.1| ≤ 2 ^ 31)
    (hpy : |itrunc (kalmanPredict k).2.2| ≤ 2 ^ 31) :
    (trackerUpdate t k dets).t.mode = t.mode ∧
    (t.mode = TrackingMode.track → 0 ≤ t.lastX → 0 ≤ t.lastY → dets = [] →
      t.enablePrediction = false →
      (trackerUpdate t k dets).found = false ∧
        (trackerUpdate t k dets).t.mode = TrackingMode.track) := by
  have part1 : (trackerUpdate t k dets).t.mode = t.mode := by
    by_cases hmode : t.mode ≠ TrackingMode.track
    · rw [trackerUpdate, if_pos hmode]
    · by_cases hlast : t.lastX < 0 ∨ t.lastY < 0
      · rw [trackerUpdate, if_neg hmode, if_pos hlast]
      · by_cases hlen : dets.length = 0
        · rw [trackerUpdate, if_neg hmode, if_neg hlast]
          simp only [hlen, eq_self_iff_true, if_true]
          split_ifs <;> rfl
        · have hne : dets ≠ [] := by
            intro h
            exact hlen (by rw [h]; rfl)
          have hall : ∀ r ∈ dets, distance r.x r.y (itrunc (kalmanPredict k).2.1)
              (itrunc (kalmanPredict k).2.2) < 1e10 := by
            intro r hr
            exact distance_lt_big (hb r hr).1 (hb r hr).2 hpx hpy
          obtain ⟨r, hr, hsome, hdist, hmin⟩ :=
            trackerSelect_spec (itrunc (kalmanPredict k).2.1)
              (itrunc (kalmanPredict k).2.2) dets (gatingRadius t) hne hall
          rw [trackerUpdate, if_neg hmode, if_neg hlast]
          simp only [hlen, if_false, hsome]
          split_ifs <;> rfl
  refine ⟨part1, ?_⟩
  intro hm hx hy hdets hp
  subst hdets
  have hgate : ¬(t.mode ≠ TrackingMode.track) := by rw [hm]; exact fun h => h rfl
  have hneg : ¬(t.lastX < 0 ∨ t.lastY < 0) := by
    push_neg
    exact ⟨hx, hy⟩
  have heq : trackerUpdate t k [] =
      ⟨false, { t with predictedX := itrunc (kalmanPredict k).2.1,
                       predictedY := itrunc (kalmanPredict k).2.2 },
        (kalmanPredict k).1, none⟩ := by
    rw [trackerUpdate, if_neg hgate, if_neg hneg]
    simp only [List.length_nil, if_true, hp]
  rw [heq]
  exact ⟨rfl, hm⟩

/-- Witness for C10 at a concrete state (empty list, prediction disabled). -/
theorem C10_witness :
    ((∀ r ∈ ([] : List Rect), |r.x| ≤ 2 ^ 31 ∧ |r.y| ≤ 2 ^ 31) ∧
      |itrunc (kalmanPredict kalmanZero).2.1| ≤ 2 ^ 31 ∧
      |itrunc (kalmanPredict kalmanZero).2.2| ≤ 2 ^ 31 ∧
      tTrackA.mode = TrackingMode.track ∧ (0:ℤ) ≤ tTrackA.lastX ∧
      (0:ℤ) ≤ tTrackA.lastY ∧ tTrackA.enablePrediction = false) ∧
    ((trackerUpdate tTrackA kalmanZero []).t.mode = tTrackA.mode ∧
      (trackerUpdate tTrackA kalmanZero []).found = false ∧
      (trackerUpdate tTrackA kalmanZero []).t.mode = TrackingMode.track) := by
  have hpx : |itrunc (kalmanPredict kalmanZero).2.1| ≤ (2:ℤ) ^ 31 := by
    have h0 : (kalmanPredict kalmanZero).2.1 = 0 := rfl
    rw [h0, itrunc_zero]
    decide
  have hpy : |itrunc (kalmanPredict kalmanZero).2.2| ≤ (2:ℤ) ^ 31 := by
    have h0 : (kalmanPredict kalmanZero).2.2 = 0 := rfl
    rw [h0, itrunc_zero]
    decide
  have hmain := C10_trackerUpdate_mode_constant tTrackA kalmanZero [] (by simp) hpx hpy
  have hx : (0:ℤ) ≤ tTrackA.lastX := by norm_num [tTrackA, trackerInitState]
  have hy : (0:ℤ) ≤ tTrackA.lastY := by norm_num [tTrackA, trackerInitState]
  have h2 := hmain.2 rfl hx hy rfl rfl
  exact ⟨⟨by simp, hpx, hpy, rfl, hx, hy, rfl⟩, hmain.1, h2.1, h2.2⟩

/-! ## Claim C1: confidence ranges -/

/-- Tracker state right after `trackerStartTracking(100, 100, 10, 10)` from the
initial state. -/
def tStart : TrackerState :=
  { trackerInitState with
    lastX := 100, lastY := 100, lastW := 10, lastH := 10,
    mode := TrackingMode.track, confidence := 1 }

/-- Kalman state right after that call. -/
def kStart : KalmanState := kalmanInit ((100 : ℤ) : ℝ) ((100 : ℤ) : ℝ) 300 1

/-- The concrete two-call trace `startTracking(100,100,10,10); update([])`. -/
def cexTrace : TrackerState × KalmanState :=
  applyOp (.update []) (applyOp (.startTracking 100 100 10 10)
    (trackerInitState, kalmanZero))

theorem cexTrace_eq :
    cexTrace = ({ tStart with predictedX := itrunc (kalmanPredict kStart).2.1,
                              predictedY := itrunc (kalmanPredict kStart).2.2 },
                (kalmanPredict kStart).1) := by
  have hk : applyOp (.startTracking 100 100 10 10) (trackerInitState, kalmanZero) =
      (tStart, kStart) := rfl
  have hupd := (trackerUpdate_empty_spec tStart kStart rfl
      (by norm_num [tStart, trackerInitState])
      (by norm_num [tStart, trackerInitState])).1 rfl
  rw [cexTrace, hk]
  simp only [applyOp, hupd]

/-- Counterexample to C1: after `startTracking(100,100,10,10)` followed by
`update([])` (a reachable state still in Track mode with a valid last-known
position), `trackerGetConfidence()` is negative: the covariance diagonal has
grown to 410 by the predict step, so `uncertainty = 410·√2 > 500`. -/
theorem C1_counterexample :
    Reach cexTrace ∧ trackerGetConfidence cexTrace.1 cexTrace.2 < 0 := by
  constructor
  · exact Reach.step _ (Reach.step _ Reach.start)
  · rw [cexTrace_eq]
    rw [trackerGetConfidence, if_pos ⟨rfl, by norm_num [tStart, trackerInitState]⟩]
    rw [kalmanGetUncertainty, kStart, kInit_predict_P00 _ _, kInit_predict_P11 _ _]
    have hgt : (500 : ℝ) < Real.sqrt (410 * 410 + 410 * 410) := by
      rw [Real.lt_sqrt (by norm_num)]
      norm_num
    apply div_neg_of_neg_of_pos _ (by norm_num : (0:ℝ) < 500)
    linarith

/-- The possible confidence values written through `outConfidence` by
`trackerUpdate`. -/
theorem trackerUpdate_out_conf (t : TrackerState) (k : KalmanState)
    (dets : List Rect) (o : TrackOut)
    (h : (trackerUpdate t k dets).out = some o) :
    o.conf = 0.5 ∨ o.conf = 0.3 ∨ ∃ c, o.conf = max 0.3 (min 1 c) := by
  by_cases h1 : t.mode ≠ TrackingMode.track
  · rw [trackerUpdate, if_pos h1] at h
    exact absurd h (by simp)
  · by_cases h2 : t.lastX < 0 ∨ t.lastY < 0
    · rw [trackerUpdate, if_neg h1, if_pos h2] at h
      exact absurd h (by simp)
    · by_cases h3 : dets.length = 0
      · rw [trackerUpdate, if_neg h1, if_neg h2] at h
        simp only [h3, eq_self_iff_true, if_true] at h
        split_ifs at h with h4 h5 <;>
          first
            | (simp only [Option.some.injEq] at h
               subst h
               first
                 | exact Or.inl rfl
                 | exact Or.inr (Or.inl rfl)
                 | exact Or.inr (Or.inr ⟨_, rfl⟩))
            | exact absurd h (by simp)
      · rw [trackerUpdate, if_neg h1, if_neg h2] at h
        simp only [h3, if_false] at h
        by_cases h5 : (scanBest (itrunc (kalmanPredict k).2.1)
            (itrunc (kalmanPredict k).2.2) dets (none, gatingRadius t)).1 = none
        · simp only [h5, eq_self_iff_true, if_true] at h
          rcases hs : (scanBest (itrunc (kalmanPredict k).2.1)
              (itrunc (kalmanPredict k).2.2) dets (none, 1e10)).1 with _ | r <;>
            rw [hs] at h <;>
            simp only [] at h <;>
            split_ifs at h <;>
              first
                | (simp only [Option.some.injEq] at h
                   subst h
                   first
                     | exact Or.inl rfl
                     | exact Or.inr (Or.inl rfl)
                     | exact Or.inr (Or.inr ⟨_, rfl⟩))
                | exact absurd h (by simp)
        · simp only [h5, if_false] at h
          rcases hs : (scanBest (itrunc (kalmanPredict k).2.1)
              (itrunc (kalmanPredict k).2.2) dets (none, gatingRadius t)).1 with _ | r
          · exact absurd hs h5
          · rw [hs] at h
            simp only [] at h
            split_ifs at h <;>
              first
                | (simp only [Option.some.injEq] at h
                   subst h
                   first
                     | exact Or.inl rfl
                     | exact Or.inr (Or.inl rfl)
                     | exact Or.inr (Or.inr ⟨_, rfl⟩))
                | exact absurd h (by simp)

/-- C1 (amended): every confidence exposed through the per-update output and
through `trackerStartTracking` lies in `[0,1]`; `trackerGetConfidence` is at
most 1 but is not bounded below by 0 (see the counterexample). -/
theorem C1_amended_confidence_ranges :
    (∀ (t : TrackerState) (k : KalmanState) (dets : List Rect) (o : TrackOut),
      (trackerUpdate t k dets).out = some o → 0 ≤ o.conf ∧ o.conf ≤ 1) ∧
    (∀ (t : TrackerState) (k : KalmanState) (x y w h : ℤ),
      ((trackerStartTracking x y w h t k).1).confidence = 1) ∧
    (∀ (t : TrackerState) (k : KalmanState), trackerGetConfidence t k ≤ 1) := by
  refine ⟨?_, ?_, ?_⟩
  · intro t k dets o h
    rcases trackerUpdate_out_conf t k dets o h with h5 | h3 | ⟨c, hc⟩
    · rw [h5]
      norm_num
    · rw [h3]
      norm_num
    · rw [hc]
      constructor
      · calc (0:ℝ) ≤ 0.3 := by norm_num
          _ ≤ max 0.3 (min 1 c) := le_max_left _ _
      · exact max_le (by norm_num) (min_le_left _ _)
  · intro t k x y w h
    rfl
  · intro t k
    rw [trackerGetConfidence]
    split_ifs with h
    · rw [div_le_one (by norm_num : (0:ℝ) < 500)]
      have := Real.sqrt_nonneg (k.P 0 0 * k.P 0 0 + k.P 1 1 * k.P 1 1)
      rw [kalmanGetUncertainty]
      linarith
    · norm_num

/-- The output record of the prediction path used in the C1 witness. -/
def oW : TrackOut :=
  ⟨itrunc (kalmanPredict kSingular).2.1, itrunc (kalmanPredict kSingular).2.2,
   tTrackB.lastW, tTrackB.lastH, 0.5⟩

/-- Witness for C1's amended universal part at a concrete found update. -/
theorem C1_witness :
    (trackerUpdate tTrackB kSingular []).out = some oW ∧
      (0 ≤ oW.conf ∧ oW.conf ≤ 1) := by
  have hupd := (trackerUpdate_empty_spec tTrackB kSingular rfl
      (by norm_num [tTrackB, tTrackA, trackerInitState])
      (by norm_num [tTrackB, tTrackA, trackerInitState])).2.1 rfl
      kSingular_uncertainty_lt
  have hout : (trackerUpdate tTrackB kSingular []).out = some oW := by
    rw [hupd]
    rfl
  exact ⟨hout, C1_amended_confidence_ranges.1 tTrackB kSingular [] oW hout⟩

/-! ## Claim C2: repeated updates with a constant measurement -/

set_option maxHeartbeats 1000000 in
/-- One `kalmanUpdate` step on a state whose covariance has the diagonal shape
`diag(p, p, 10, 10)` maintained by repeated updates from `kalmanInit`. -/
theorem kalmanUpdate_diag (mx my sx sy vx vy p pn mn : ℝ)
    (hpmn : 1e-5 ≤ p + mn) :
    kalmanUpdate mx my
      { state := ![sx, sy, vx, vy], P := diagP p, processNoise := pn,
        measurementNoise := mn, inited := true } =
      { state := ![sx + p / (p + mn) * (mx - sx),
                   sy + p / (p + mn) * (my - sy),
                   vx * 0.5 + (p / (p + mn) * (mx - sx)) * 0.5,
                   vy * 0.5 + (p / (p + mn) * (my - sy)) * 0.5],
        P := diagP (mn * p / (p + mn)),
        processNoise := pn, measurementNoise := mn, inited := true } := by
  have hpos : (0:ℝ) < p + mn := lt_of_lt_of_le (by norm_num) hpmn
  have hne : p + mn ≠ 0 := ne_of_gt hpos
  have hg : ¬ (|(p + mn) * (p + mn)| < 1e-10) := by
    intro hcon
    rw [abs_lt] at hcon
    nlinarith [hcon.2,
      mul_le_mul hpmn hpmn (by norm_num : (0:ℝ) ≤ 1e-5) (le_of_lt hpos)]
  rw [kalmanUpdate]
  simp only [diagP, Matrix.cons_val_zero, Matrix.cons_val_one, Matrix.head_cons,
    Matrix.cons_val_two, Matrix.cons_val_three, Matrix.tail_cons, Bool.true_eq_false,
    if_false, mul_zero, zero_mul, sub_zero, add_zero, zero_add]
  rw [if_neg hg]
  refine KalmanState.ext ?_ ?_ rfl rfl rfl
  · funext i
    fin_cases i <;>
      simp [Matrix.vecHead, Matrix.vecTail] <;>
      field_simp <;>
      ring
  · funext i j
    fin_cases i <;> fin_cases j <;>
      simp [matMul4x4, Matrix.vecHead, Matrix.vecTail] <;>
      field_simp <;>
      ring

set_option maxHeartbeats 1000000 in
/-- Closed form of `n` repeated `kalmanUpdate(mx, my)` calls on a freshly
initialized filter: the position error scales by `mn/(mn + 100·n)` and the
position covariance is `100·mn/(mn + 100·n)`. -/
theorem kalmanIter_closed (x0 y0 pn mn mx my : ℝ) (hmn : 1e-5 ≤ mn) (n : ℕ) :
    (kalmanIter mx my (kalmanInit x0 y0 pn mn) n).state 0 =
        mx - (mx - x0) * (mn / (mn + 100 * n)) ∧
    (kalmanIter mx my (kalmanInit x0 y0 pn mn) n).state 1 =
        my - (my - y0) * (mn / (mn + 100 * n)) ∧
    (kalmanIter mx my (kalmanInit x0 y0 pn mn) n).P =
        diagP (100 * mn / (mn + 100 * n)) ∧
    (kalmanIter mx my (kalmanInit x0 y0 pn mn) n).processNoise = pn ∧
    (kalmanIter mx my (kalmanInit x0 y0 pn mn) n).measurementNoise = mn ∧
    (kalmanIter mx my (kalmanInit x0 y0 pn mn) n).inited = true := by
  have hmn0 : (0:ℝ) < mn := lt_of_lt_of_le (by norm_num) hmn
  induction n with
  | zero =>
    refine ⟨?_, ?_, ?_, rfl, rfl, rfl⟩
    · show x0 = mx - (mx - x0) * (mn / (mn + 100 * ((0:ℕ):ℝ)))
      push_cast
      field_simp
    · show y0 = my - (my - y0) * (mn / (mn + 100 * ((0:ℕ):ℝ)))
      push_cast
      field_simp
    · have harg : (100:ℝ) * mn / (mn + 100 * ((0:ℕ):ℝ)) = 100 := by
        push_cast
        field_simp
      show diagP 100 = diagP (100 * mn / (mn + 100 * ((0:ℕ):ℝ)))
      rw [harg]
  | succ m ih =>
    obtain ⟨h0, h1, hP, hpn, hmn1, hin⟩ := ih
    have hden : (0:ℝ) < mn + 100 * m := by positivity
    have hp0 : (0:ℝ) ≤ 100 * mn / (mn + 100 * m) := by positivity
    have hpmn : (1e-5:ℝ) ≤ 100 * mn / (mn + 100 * m) + mn := le_trans hmn (by linarith)
    have hpmn0 : (0:ℝ) < 100 * mn / (mn + 100 * m) + mn := by positivity
    have hden1 : (0:ℝ) < mn + 100 * (m + 1) := by positivity
    have hKeq : kalmanIter mx my (kalmanInit x0 y0 pn mn) m =
        { state := ![(kalmanIter mx my (kalmanInit x0 y0 pn mn) m).state 0,
                     (kalmanIter mx my (kalmanInit x0 y0 pn mn) m).state 1,
                     (kalmanIter mx my (kalmanInit x0 y0 pn mn) m).state 2,
                     (kalmanIter mx my (kalmanInit x0 y0 pn mn) m).state 3],
          P := diagP (100 * mn / (mn + 100 * m)), processNoise := pn,
          measurementNoise := mn, inited := true } := by
      refine KalmanState.ext ?_ hP hpn hmn1 hin
      funext i
      fin_cases i <;> simp
    have step : kalmanIter mx my (kalmanInit x0 y0 pn mn) (m + 1) =
        kalmanUpdate mx my (kalmanIter mx my (kalmanInit x0 y0 pn mn) m) := rfl
    rw [step, hKeq, kalmanUpdate_diag _ _ _ _ _ _ _ _ _ hpmn, h0, h1]
    refine ⟨?_, ?_, ?_, rfl, rfl, rfl⟩
    · push_cast
      simp only [Matrix.cons_val_zero]
      field_simp
      ring
    · push_cast
      simp only [Matrix.cons_val_one, Matrix.head_cons]
      field_simp
      ring
    · push_cast
      refine congrArg diagP ?_
      field_simp
      ring

/-- The position error after `n` repeated updates is the initial error scaled
by `mn/(mn + 100·n)`. -/
theorem posError_closed (x0 y0 pn mn mx my : ℝ) (hmn : 1e-5 ≤ mn) (n : ℕ) :
    posError mx my (kalmanIter mx my (kalmanInit x0 y0 pn mn) n) =
      (mn / (mn + 100 * n)) *
        Real.sqrt ((mx - x0) * (mx - x0) + (my - y0) * (my - y0)) := by
  have hmn0 : (0:ℝ) < mn := lt_of_lt_of_le (by norm_num) hmn
  have hden : (0:ℝ) < mn + 100 * n := by positivity
  have hf : (0:ℝ) ≤ mn / (mn + 100 * n) := by positivity
  obtain ⟨h0, h1, -, -, -, -⟩ := kalmanIter_closed x0 y0 pn mn mx my hmn n
  rw [posError, h0, h1]
  have hsplit :
      (mx - (mx - x0) * (mn / (mn + 100 * n)) - mx) *
          (mx - (mx - x0) * (mn / (mn + 100 * n)) - mx) +
        (my - (my - y0) * (mn / (mn + 100 * n)) - my) *
          (my - (my - y0) * (mn / (mn + 100 * n)) - my) =
      (mn / (mn + 100 * n)) * (mn / (mn + 100 * n)) *
        ((mx - x0) * (mx - x0) + (my - y0) * (my - y0)) := by
    ring
  rw [hsplit, Real.sqrt_mul (mul_nonneg hf hf), Real.sqrt_mul_self hf]

/-- C2 (amended): with measurement noise at least `1e-5` (the tracker uses
`R = 1`), repeated `kalmanUpdate(mx, my)` from a freshly initialized filter
makes the distance from the position estimate to `(mx, my)` decrease
monotonically and converge to zero. -/
theorem C2_amended_error_to_zero (x0 y0 pn mn mx my : ℝ) (hmn : 1e-5 ≤ mn) :
    (∀ n : ℕ,
      posError mx my (kalmanIter mx my (kalmanInit x0 y0 pn mn) (n + 1)) ≤
        posError mx my (kalmanIter mx my (kalmanInit x0 y0 pn mn) n)) ∧
    Filter.Tendsto
      (fun n : ℕ => posError mx my (kalmanIter mx my (kalmanInit x0 y0 pn mn) n))
      Filter.atTop (nhds 0) := by
  have hmn0 : (0:ℝ) < mn := lt_of_lt_of_le (by norm_num) hmn
  have hC : (0:ℝ) ≤ Real.sqrt ((mx - x0) * (mx - x0) + (my - y0) * (my - y0)) :=
    Real.sqrt_nonneg _
  constructor
  · intro n
    rw [posError_closed x0 y0 pn mn mx my hmn n,
      posError_closed x0 y0 pn mn mx my hmn (n + 1)]
    have hmono : mn / (mn + 100 * ((n:ℝ) + 1)) ≤ mn / (mn + 100 * n) := by
      apply div_le_div_of_nonneg_left (le_of_lt hmn0) (by positivity)
      push_cast
      linarith
    calc mn / (mn + 100 * ((n + 1 : ℕ) : ℝ)) * Real.sqrt _
        = mn / (mn + 100 * ((n:ℝ) + 1)) * Real.sqrt _ := by push_cast; rfl
      _ ≤ mn / (mn + 100 * n) * Real.sqrt _ := mul_le_mul_of_nonneg_right hmono hC
  · have hlim : Filter.Tendsto (fun n : ℕ => mn / (mn + 100 * (n:ℝ)))
        Filter.atTop (nhds 0) := by
      apply Filter.Tendsto.div_atTop tendsto_const_nhds
      apply Filter.tendsto_atTop_add_const_left
      exact (tendsto_natCast_atTop_atTop).const_mul_atTop (by norm_num : (0:ℝ) < 100)
    have := hlim.mul_const
      (Real.sqrt ((mx - x0) * (mx - x0) + (my - y0) * (my - y0)))
    rw [zero_mul] at this
    refine Filter.Tendsto.congr ?_ this
    intro n
    rw [posError_closed x0 y0 pn mn mx my hmn n]

/-- Witness for C2's amended statement at concrete parameters. -/
theorem C2_witness :
    (1e-5 : ℝ) ≤ 1 ∧
    ((∀ n : ℕ,
      posError 5 7 (kalmanIter 5 7 (kalmanInit 0 0 300 1) (n + 1)) ≤
        posError 5 7 (kalmanIter 5 7 (kalmanInit 0 0 300 1) n)) ∧
    Filter.Tendsto
      (fun n : ℕ => posError 5 7 (kalmanIter 5 7 (kalmanInit 0 0 300 1) n))
      Filter.atTop (nhds 0)) :=
  ⟨by norm_num, C2_amended_error_to_zero 0 0 300 1 5 7 (by norm_num)⟩

/-- The Kalman state after one `kalmanUpdate(1, 0)` on
`kalmanInit(0, 0, 300, 1e-6)`. -/
def cexK1 : KalmanState :=
  { state := ![0 + 100 / (100 + 1e-6) * (1 - 0), 0 + 100 / (100 + 1e-6) * (0 - 0),
               0 * 0.5 + (100 / (100 + 1e-6) * (1 - 0)) * 0.5,
               0 * 0.5 + (100 / (100 + 1e-6) * (0 - 0)) * 0.5],
    P := diagP (1e-6 * 100 / (100 + 1e-6)),
    processNoise := 300, measurementNoise := 1e-6, inited := true }

theorem cex_step1 : kalmanUpdate 1 0 (kalmanInit 0 0 300 1e-6) = cexK1 :=
  kalmanUpdate_diag 1 0 0 0 0 0 100 300 1e-6 (by norm_num)

theorem cex_frozen : |innovationDet cexK1| < 1e-10 := by
  simp only [innovationDet, cexK1, diagP, Matrix.cons_val_zero, Matrix.cons_val_one,
    Matrix.head_cons, Matrix.cons_val_two, Matrix.cons_val_three, Matrix.tail_cons]
  rw [abs_lt]
  constructor <;> norm_num

theorem cex_iter_frozen (n : ℕ) :
    kalmanIter 1 0 (kalmanInit 0 0 300 1e-6) (n + 1) = cexK1 := by
  induction n with
  | zero =>
    show kalmanUpdate 1 0 (kalmanInit 0 0 300 1e-6) = cexK1
    exact cex_step1
  | succ m ihm =>
    show kalmanUpdate 1 0 (kalmanIter 1 0 (kalmanInit 0 0 300 1e-6) (m + 1)) = cexK1
    rw [ihm]
    exact kalmanUpdate_noop 1 0 cexK1 rfl cex_frozen

theorem cex_posError : posError 1 0 cexK1 = 1e-6 / (100 + 1e-6) := by
  have e0 : cexK1.state 0 = 100 / (100 + 1e-6) := by norm_num [cexK1]
  have e1 : cexK1.state 1 = 0 := by norm_num [cexK1]
  rw [posError, e0, e1]
  rw [show (100 / (100 + 1e-6) - (1:ℝ)) * (100 / (100 + 1e-6) - 1) +
        ((0:ℝ) - 0) * (0 - 0) =
      (1e-6 / (100 + 1e-6)) * (1e-6 / (100 + 1e-6)) from by field_simp]
  rw [Real.sqrt_mul_self (by positivity)]

/-- Counterexample to C2 as stated: on the initialized filter
`kalmanInit(0, 0, 300, 1e-6)` with constant measurement `(1, 0)`, the position
error does not tend to zero: after the first update the singular-S guard
(`|det S| < 1e-10`) turns every further update into a no-op, freezing the
error at `1e-6/(100+1e-6) > 0`. -/
theorem C2_counterexample :
    ¬ ((∀ n : ℕ,
        posError 1 0 (kalmanIter 1 0 (kalmanInit 0 0 300 (1e-6)) (n + 1)) ≤
          posError 1 0 (kalmanIter 1 0 (kalmanInit 0 0 300 (1e-6)) n)) ∧
      Filter.Tendsto
        (fun n : ℕ => posError 1 0 (kalmanIter 1 0 (kalmanInit 0 0 300 (1e-6)) n))
        Filter.atTop (nhds 0)) := by
  rintro ⟨-, hT⟩
  have hconst : Filter.Tendsto
      (fun n : ℕ => posError 1 0 (kalmanIter 1 0 (kalmanInit 0 0 300 (1e-6)) n))
      Filter.atTop (nhds (1e-6 / (100 + 1e-6))) := by
    apply Filter.Tendsto.congr' _ tendsto_const_nhds
    rw [Filter.EventuallyEq, Filter.eventually_atTop]
    refine ⟨1, fun n hn => ?_⟩
    obtain ⟨m, rfl⟩ := Nat.exists_eq_add_of_le hn
    rw [show 1 + m = m + 1 from Nat.add_comm 1 m, cex_iter_frozen m, cex_posError]
  have h0 := tendsto_nhds_unique hT hconst
  norm_num at h0
